import Mathlib

/-!
Shallow embedding of `pdf2sents/pipeline.py` (the repository's single source
file): the `PipelineStepConfig` / `PipelineConfig` declarative configuration,
`Pipeline.__init__` (stage construction via `springs.init.now`), and
`Pipeline.run` / `Pipeline.__call__`.

Modelling choices:
- The seven sub-processors (PDF parser, rasterizer, layout predictor, word
  predictor, sentence predictor, block-type predictor, sentence-type
  predictor) are external collaborators.  A constructed stage object is
  modelled as a `StageInstance` (the implementation class named by the
  config's target string plus its constructor parameters); the behaviour of
  those objects is an abstract semantics `Sem` mapping an instance and its
  call arguments to `Except String` results, so that a collaborator raising
  an exception is an `Except.error`.
- `cached_path` is an external caching fetch utility; it is kept abstract as
  a function parameter `cp : String → String` resolving a URL or path to a
  local file path.
- `mmda.types.document.Document` is external; per its call contract used
  here it is a container of parsed symbols plus annotation layers attached
  by name.  Payloads of layers are abstracted as `Nat` tokens.
- `Pipeline.run` is embedded as a function that, besides its
  `Except String Document` result, emits the trace of effects the Python
  body performs in order: resolving the input path, calling the parser,
  calling the rasterizer (with the dpi argument passed), entering/leaving
  the `torch.no_grad()` and `warnings.catch_warnings()` context managers,
  the `warnings.simplefilter("ignore")` call, each predictor call, and each
  `doc.annotate` call (recorded with the layer fields before and after).
  Python context managers run their exit handlers also when the body raises,
  so the trace records the `warnEnd` / `noGradEnd` events in the error
  branch of the layout prediction as well.
-/

namespace Pdf2Sents

/-- Names of the annotation layers attached to a `Document` by the pipeline
stages: `images`, `blocks`, `words`, `sents`, `typed_blocks`, `typed_sents`. -/
inductive Field where
  | images
  | blocks
  | words
  | sents
  | typed_blocks
  | typed_sents
deriving DecidableEq, Repr

/-- External `mmda` `Document`: parsed symbols plus the annotation layers
attached so far, in attachment order; layer payloads abstracted as `Nat`. -/
structure Document where
  symbols : String
  layers : List (Field × Nat)
deriving DecidableEq, Repr

/-- External `Document.annotate` / `annotate_images` call contract: attach a
new named layer to the document (layers are added, never removed). -/
def Document.annotate (d : Document) (f : Field) (v : Nat) : Document :=
  { d with layers := d.layers ++ [(f, v)] }

/-- The names of the layers attached to a document, in attachment order. -/
def Document.fields (d : Document) : List Field :=
  d.layers.map Prod.fst

/-- One `PipelineStepConfig`: the `_target_` implementation class name plus
the remaining (flexy) constructor parameters, as key/value pairs. -/
structure PipelineStepConfig where
  target : String
  params : List (String × String)
deriving DecidableEq, Repr

/-- The `PipelineConfig` dataclass: one step config per stage. -/
structure PipelineConfig where
  parser : PipelineStepConfig
  rasterizer : PipelineStepConfig
  layout : PipelineStepConfig
  sents : PipelineStepConfig
  words : PipelineStepConfig
  blocks_type : PipelineStepConfig
  sents_type : PipelineStepConfig
deriving DecidableEq, Repr

/-- URL of the default word dictionary fetched by the default `words` config. -/
def wordsUrl : String :=
  "https://github.com/dwyl/english-words/raw/master/words.txt"

/-- The default values of the `PipelineConfig` dataclass fields, as written
in the source: each `_target_` is `sp.Target.to_string` of the imported
implementation class, the layout default carries
`config_path="lp://efficientdet/PubLayNet"`, and the words default carries
`dictionary_file_path=str(cached_path(<words.txt url>))`, with `cp` the
abstract `cached_path`. -/
def defaultPipelineConfig (cp : String → String) : PipelineConfig where
  parser :=
    { target := "mmda.parsers.pdfplumber_parser.PDFPlumberParser", params := [] }
  rasterizer :=
    { target := "mmda.rasterizers.rasterizer.PDF2ImageRasterizer", params := [] }
  layout :=
    { target := "mmda.predictors.lp_predictors.LayoutParserPredictor.from_pretrained",
      params := [("config_path", "lp://efficientdet/PubLayNet")] }
  sents :=
    { target := "mmda.predictors.heuristic_predictors.sentence_boundary_predictor.PysbdSentenceBoundaryPredictor",
      params := [] }
  words :=
    { target := "pdf2sents.word_predictors.ExtendedDictionaryWordPredictor",
      params := [("dictionary_file_path", cp wordsUrl)] }
  blocks_type :=
    { target := "pdf2sents.typed_predictors.TypedBlockPredictor", params := [] }
  sents_type :=
    { target := "pdf2sents.typed_predictors.TypedSentencesPredictor", params := [] }

/-- A constructed sub-processor object: the implementation class it was
instantiated from and the constructor parameters it was given. -/
structure StageInstance where
  cls : String
  args : List (String × String)
deriving DecidableEq, Repr

/-- External `springs` `sp.init.now(config, Type)` call contract:
instantiate the class named by the config's `_target_` with the config's
remaining parameters. -/
def sp_init_now (c : PipelineStepConfig) : StageInstance :=
  { cls := c.target, args := c.params }

/-- The `Pipeline` object: the seven sub-processor instances stored by
`Pipeline.__init__`, under the source's attribute names. -/
structure Pipeline where
  parser : StageInstance
  rasterizer : StageInstance
  layout_pred : StageInstance
  words_pred : StageInstance
  sents_pred : StageInstance
  blocks_type_pred : StageInstance
  sents_type_pred : StageInstance
deriving DecidableEq, Repr

/-- `Pipeline.__init__(config)`: construct each of the seven stage instances
from the corresponding entry of the config via `sp.init.now`. -/
def Pipeline.init (config : PipelineConfig) : Pipeline where
  parser := sp_init_now config.parser
  rasterizer := sp_init_now config.rasterizer
  layout_pred := sp_init_now config.layout
  words_pred := sp_init_now config.words
  sents_pred := sp_init_now config.sents
  blocks_type_pred := sp_init_now config.blocks_type
  sents_type_pred := sp_init_now config.sents_type

/-- Identifiers of the seven pipeline stages, used to state frame
properties over the configuration componentwise. -/
inductive StageId where
  | parser
  | rasterizer
  | layout
  | words
  | sents
  | blocks_type
  | sents_type
deriving DecidableEq, Repr

/-- Projection of a `PipelineConfig` at a stage identifier. -/
def PipelineConfig.get (c : PipelineConfig) : StageId → PipelineStepConfig
  | .parser => c.parser
  | .rasterizer => c.rasterizer
  | .layout => c.layout
  | .words => c.words
  | .sents => c.sents
  | .blocks_type => c.blocks_type
  | .sents_type => c.sents_type

/-- Projection of a `Pipeline` at a stage identifier. -/
def Pipeline.get (p : Pipeline) : StageId → StageInstance
  | .parser => p.parser
  | .rasterizer => p.rasterizer
  | .layout => p.layout_pred
  | .words => p.words_pred
  | .sents => p.sents_pred
  | .blocks_type => p.blocks_type_pred
  | .sents_type => p.sents_type_pred

/-- Predictor stages called through `.predict(doc)` inside `run`. -/
inductive PredStage where
  | layout
  | words
  | sents
  | blocks_type
  | sents_type
deriving DecidableEq, Repr

/-- Effects performed by the body of `Pipeline.run`, in program order. -/
inductive Event where
  | resolve (input src : String)
  | parseCall (path : String)
  | rasterizeCall (path : String) (dpi : Nat)
  | noGradBegin
  | noGradEnd
  | warnBegin
  | warnIgnore
  | warnEnd
  | predictCall (s : PredStage)
  | annotateLayer (f : Field) (before after : List Field)
deriving DecidableEq, Repr

/-- Abstract behaviour of the external sub-processors: what each constructed
instance does when called.  A Python exception raised by a collaborator is an
`Except.error` carrying the error value. -/
structure Sem where
  parse : StageInstance → String → Except String Document
  rasterize : StageInstance → String → Nat → Except String Nat
  predict : StageInstance → Document → Except String Nat

/-- The document after `doc.annotate_images(images)`. -/
def docA (doc : Document) (i : Nat) : Document :=
  doc.annotate Field.images i

/-- The document after attaching layout blocks. -/
def docB (doc : Document) (i b : Nat) : Document :=
  (docA doc i).annotate Field.blocks b

/-- The document after attaching words. -/
def docC (doc : Document) (i b w : Nat) : Document :=
  (docB doc i b).annotate Field.words w

/-- The document after attaching sentences. -/
def docD (doc : Document) (i b w s : Nat) : Document :=
  (docC doc i b w).annotate Field.sents s

/-- The document after attaching typed blocks. -/
def docE (doc : Document) (i b w s tb : Nat) : Document :=
  (docD doc i b w s).annotate Field.typed_blocks tb

/-- The fully annotated document returned by a successful run. -/
def docF (doc : Document) (i b w s tb ts : Nat) : Document :=
  (docE doc i b w s tb).annotate Field.typed_sents ts

/-- Trace of `run` up to and including the parser call. -/
def tr_parse (input src : String) : List Event :=
  [.resolve input src, .parseCall src]

/-- Trace of `run` up to and including the rasterizer call. -/
def tr_rast (input src : String) : List Event :=
  tr_parse input src ++ [.rasterizeCall src 72]

/-- Trace of `run` up to and including the layout prediction call: the
images layer is attached, then `torch.no_grad()` and
`warnings.catch_warnings()` are entered, `simplefilter("ignore")` is set,
and the layout predictor is called. -/
def tr_layout (input src : String) (doc : Document) (i : Nat) : List Event :=
  tr_rast input src ++
    [.annotateLayer .images doc.fields (docA doc i).fields,
     .noGradBegin, .warnBegin, .warnIgnore, .predictCall .layout]

/-- Trace of `run` up to and including the word prediction call: the blocks
layer is attached inside the `with` block, both context managers exit
(restoring the warnings filter), and the word predictor is called. -/
def tr_words (input src : String) (doc : Document) (i b : Nat) : List Event :=
  tr_layout input src doc i ++
    [.annotateLayer .blocks (docA doc i).fields (docB doc i b).fields,
     .warnEnd, .noGradEnd, .predictCall .words]

/-- Trace of `run` up to and including the sentence prediction call. -/
def tr_sents (input src : String) (doc : Document) (i b w : Nat) :
    List Event :=
  tr_words input src doc i b ++
    [.annotateLayer .words (docB doc i b).fields (docC doc i b w).fields,
     .predictCall .sents]

/-- Trace of `run` up to and including the block-type prediction call. -/
def tr_blocks_type (input src : String) (doc : Document) (i b w s : Nat) :
    List Event :=
  tr_sents input src doc i b w ++
    [.annotateLayer .sents (docC doc i b w).fields (docD doc i b w s).fields,
     .predictCall .blocks_type]

/-- Trace of `run` up to and including the sentence-type prediction call. -/
def tr_sents_type (input src : String) (doc : Document)
    (i b w s tb : Nat) : List Event :=
  tr_blocks_type input src doc i b w s ++
    [.annotateLayer .typed_blocks (docD doc i b w s).fields (docE doc i b w s tb).fields,
     .predictCall .sents_type]

/-- Trace of a complete successful `run`. -/
def tr_full (input src : String) (doc : Document)
    (i b w s tb ts : Nat) : List Event :=
  tr_sents_type input src doc i b w s tb ++
    [.annotateLayer .typed_sents (docE doc i b w s tb).fields (docF doc i b w s tb ts).fields]

/-- `Pipeline.run(input_path)`: resolve the input through `cached_path`,
parse, rasterize at `dpi=72`, attach images, then inside
`torch.no_grad()` and `warnings.catch_warnings()` (with
`warnings.simplefilter("ignore")`) predict and attach layout blocks,
then predict and attach words, sentences, typed blocks and typed sentences,
returning the annotated document.  The first component is the trace of
effects performed before returning or before the propagated exception
(Python `with` blocks run their exit handlers also when the body raises, so
the layout-error branch still records `warnEnd` and `noGradEnd`). -/
def Pipeline.run (sem : Sem) (p : Pipeline) (cp : String → String)
    (input : String) : List Event × Except String Document :=
  let src := cp input
  match sem.parse p.parser src with
  | .error e => (tr_parse input src, .error e)
  | .ok doc =>
    match sem.rasterize p.rasterizer src 72 with
    | .error e => (tr_rast input src, .error e)
    | .ok i =>
      match sem.predict p.layout_pred (docA doc i) with
      | .error e =>
        (tr_layout input src doc i ++ [.warnEnd, .noGradEnd], .error e)
      | .ok b =>
        match sem.predict p.words_pred (docB doc i b) with
        | .error e => (tr_words input src doc i b, .error e)
        | .ok w =>
          match sem.predict p.sents_pred (docC doc i b w) with
          | .error e => (tr_sents input src doc i b w, .error e)
          | .ok s =>
            match sem.predict p.blocks_type_pred (docD doc i b w s) with
            | .error e => (tr_blocks_type input src doc i b w s, .error e)
            | .ok tb =>
              match sem.predict p.sents_type_pred (docE doc i b w s tb) with
              | .error e =>
                (tr_sents_type input src doc i b w s tb, .error e)
              | .ok ts =>
                (tr_full input src doc i b w s tb ts,
                 .ok (docF doc i b w s tb ts))

/-- `Pipeline.__call__(input_path)`: delegates to `run`. -/
def Pipeline.call (sem : Sem) (p : Pipeline) (cp : String → String)
    (input : String) : List Event × Except String Document :=
  Pipeline.run sem p cp input

/-- The layer names attached by the annotate events of a trace, in order. -/
def attachedFields (tr : List Event) : List Field :=
  tr.filterMap fun e =>
    match e with
    | .annotateLayer f _ _ => some f
    | _ => none

/-- The documented order of the six annotation layers. -/
def fullLayerOrder : List Field :=
  [.images, .blocks, .words, .sents, .typed_blocks, .typed_sents]

/-- `a` is an initial segment of `b`. -/
def extendsTo (a b : List Field) : Prop :=
  ∃ t, b = a ++ t

/-- Warning-suppression state transition of one event: `warnBegin` enters the
`catch_warnings` block (inside which `simplefilter("ignore")` is active),
`warnEnd` restores the saved filter state. -/
def suppStep (bo : Bool) (e : Event) : Bool :=
  match e with
  | .warnBegin => true
  | .warnEnd => false
  | _ => bo

/-- Pair each event of a trace with the warning-suppression state in force
when it happens (the state before the event is processed). -/
def markSupp : Bool → List Event → List (Event × Bool)
  | _, [] => []
  | bo, e :: r => (e, bo) :: markSupp (suppStep bo e) r

/-- The warning-suppression state left in force after a whole trace. -/
def finalSupp (bo : Bool) (tr : List Event) : Bool :=
  tr.foldl suppStep bo

/-- The annotate events of a trace: layer name, fields before, fields after. -/
def annEvents (tr : List Event) : List (Field × List Field × List Field) :=
  tr.filterMap fun e =>
    match e with
    | .annotateLayer f bf af => some (f, bf, af)
    | _ => none

theorem fields_annotate (d : Document) (f : Field) (v : Nat) :
    (d.annotate f v).fields = d.fields ++ [f] := by
  simp [Document.fields, Document.annotate]

theorem run_eq_of_parse_error (sem : Sem) (p : Pipeline) (cp : String → String)
    (input : String) (e : String)
    (hp : sem.parse p.parser (cp input) = .error e) :
    Pipeline.run sem p cp input = (tr_parse input (cp input), .error e) := by
  simp [Pipeline.run, hp]

theorem run_eq_of_rast_error (sem : Sem) (p : Pipeline) (cp : String → String)
    (input : String) (e : String) (doc : Document)
    (hp : sem.parse p.parser (cp input) = .ok doc)
    (hr : sem.rasterize p.rasterizer (cp input) 72 = .error e) :
    Pipeline.run sem p cp input = (tr_rast input (cp input), .error e) := by
  simp [Pipeline.run, hp, hr]

theorem run_eq_of_layout_error (sem : Sem) (p : Pipeline) (cp : String → String)
    (input : String) (e : String) (doc : Document) (i : Nat)
    (hp : sem.parse p.parser (cp input) = .ok doc)
    (hr : sem.rasterize p.rasterizer (cp input) 72 = .ok i)
    (hl : sem.predict p.layout_pred (docA doc i) = .error e) :
    Pipeline.run sem p cp input =
      (tr_layout input (cp input) doc i ++ [.warnEnd, .noGradEnd], .error e) := by
  simp [Pipeline.run, hp, hr, hl]

theorem run_eq_of_words_error (sem : Sem) (p : Pipeline) (cp : String → String)
    (input : String) (e : String) (doc : Document) (i b : Nat)
    (hp : sem.parse p.parser (cp input) = .ok doc)
    (hr : sem.rasterize p.rasterizer (cp input) 72 = .ok i)
    (hl : sem.predict p.layout_pred (docA doc i) = .ok b)
    (hw : sem.predict p.words_pred (docB doc i b) = .error e) :
    Pipeline.run sem p cp input =
      (tr_words input (cp input) doc i b, .error e) := by
  simp [Pipeline.run, hp, hr, hl, hw]

theorem run_eq_of_sents_error (sem : Sem) (p : Pipeline) (cp : String → String)
    (input : String) (e : String) (doc : Document) (i b w : Nat)
    (hp : sem.parse p.parser (cp input) = .ok doc)
    (hr : sem.rasterize p.rasterizer (cp input) 72 = .ok i)
    (hl : sem.predict p.layout_pred (docA doc i) = .ok b)
    (hw : sem.predict p.words_pred (docB doc i b) = .ok w)
    (hs : sem.predict p.sents_pred (docC doc i b w) = .error e) :
    Pipeline.run sem p cp input =
      (tr_sents input (cp input) doc i b w, .error e) := by
  simp [Pipeline.run, hp, hr, hl, hw, hs]

theorem run_eq_of_blocks_type_error (sem : Sem) (p : Pipeline)
    (cp : String → String)
    (input : String) (e : String) (doc : Document) (i b w s : Nat)
    (hp : sem.parse p.parser (cp input) = .ok doc)
    (hr : sem.rasterize p.rasterizer (cp input) 72 = .ok i)
    (hl : sem.predict p.layout_pred (docA doc i) = .ok b)
    (hw : sem.predict p.words_pred (docB doc i b) = .ok w)
    (hs : sem.predict p.sents_pred (docC doc i b w) = .ok s)
    (hbt : sem.predict p.blocks_type_pred (docD doc i b w s) = .error e) :
    Pipeline.run sem p cp input =
      (tr_blocks_type input (cp input) doc i b w s, .error e) := by
  simp [Pipeline.run, hp, hr, hl, hw, hs, hbt]

theorem run_eq_of_sents_type_error (sem : Sem) (p : Pipeline)
    (cp : String → String)
    (input : String) (e : String) (doc : Document) (i b w s tb : Nat)
    (hp : sem.parse p.parser (cp input) = .ok doc)
    (hr : sem.rasterize p.rasterizer (cp input) 72 = .ok i)
    (hl : sem.predict p.layout_pred (docA doc i) = .ok b)
    (hw : sem.predict p.words_pred (docB doc i b) = .ok w)
    (hs : sem.predict p.sents_pred (docC doc i b w) = .ok s)
    (hbt : sem.predict p.blocks_type_pred (docD doc i b w s) = .ok tb)
    (hst : sem.predict p.sents_type_pred (docE doc i b w s tb) = .error e) :
    Pipeline.run sem p cp input =
      (tr_sents_type input (cp input) doc i b w s tb, .error e) := by
  simp [Pipeline.run, hp, hr, hl, hw, hs, hbt, hst]

theorem run_eq_of_ok (sem : Sem) (p : Pipeline) (cp : String → String)
    (input : String) (doc : Document) (i b w s tb ts : Nat)
    (hp : sem.parse p.parser (cp input) = .ok doc)
    (hr : sem.rasterize p.rasterizer (cp input) 72 = .ok i)
    (hl : sem.predict p.layout_pred (docA doc i) = .ok b)
    (hw : sem.predict p.words_pred (docB doc i b) = .ok w)
    (hs : sem.predict p.sents_pred (docC doc i b w) = .ok s)
    (hbt : sem.predict p.blocks_type_pred (docD doc i b w s) = .ok tb)
    (hst : sem.predict p.sents_type_pred (docE doc i b w s tb) = .ok ts) :
    Pipeline.run sem p cp input =
      (tr_full input (cp input) doc i b w s tb ts,
       .ok (docF doc i b w s tb ts)) := by
  simp [Pipeline.run, hp, hr, hl, hw, hs, hbt, hst]

/-- A bare parsed document used to exercise the theorems below. -/
def docW : Document := { symbols := "sym", layers := [] }

/-- A semantics where every collaborator call succeeds. -/
def semOk : Sem where
  parse := fun _ _ => .ok docW
  rasterize := fun _ _ _ => .ok 1
  predict := fun _ _ => .ok 2

/-- A semantics where the word predictor (called on a document carrying
exactly the images and blocks layers) raises and everything else succeeds. -/
def semWordsFail : Sem where
  parse := fun _ _ => .ok docW
  rasterize := fun _ _ _ => .ok 1
  predict := fun _ d =>
    if d.fields = [Field.images, Field.blocks] then
      .error "word predictor failed"
    else
      .ok 2

/-- A semantics where the sentence predictor (called on a document carrying
exactly the images, blocks and words layers) raises and everything else
succeeds. -/
def semSentsFail : Sem where
  parse := fun _ _ => .ok docW
  rasterize := fun _ _ _ => .ok 1
  predict := fun _ d =>
    if d.fields = [Field.images, Field.blocks, Field.words] then
      .error "sentence predictor failed"
    else
      .ok 2

/-- The pipeline built from the default configuration (with the identity as
the path resolution). -/
def pDef : Pipeline := Pipeline.init (defaultPipelineConfig id)

/-- A configuration equal to the default except for the layout stage, which
points at a different layout model. -/
def cfgAltLayout : PipelineConfig :=
  { defaultPipelineConfig id with
    layout :=
      { target := "mmda.predictors.lp_predictors.LayoutParserPredictor.from_pretrained",
        params := [("config_path", "lp://detectron2/PubLayNet")] } }

/-- C1: for every input path whose parser, rasterizer and five predictor
calls succeed, `Pipeline.run` resolves the path as a local or cached file
reference, parses it into a Document, rasterizes and attaches images, runs
layout detection and attaches blocks, then attaches words, sentences, typed
blocks and typed sentences in turn, and returns the fully annotated
Document: the result keeps the parsed symbols and carries the parsed
document's layers followed by the six annotation layers in order, and the
trace is exactly the full stage sequence. -/
theorem c1_run_fully_annotates (sem : Sem) (p : Pipeline)
    (cp : String → String) (input : String) (doc : Document)
    (i b w s tb ts : Nat)
    (hp : sem.parse p.parser (cp input) = .ok doc)
    (hr : sem.rasterize p.rasterizer (cp input) 72 = .ok i)
    (hl : sem.predict p.layout_pred (docA doc i) = .ok b)
    (hw : sem.predict p.words_pred (docB doc i b) = .ok w)
    (hs : sem.predict p.sents_pred (docC doc i b w) = .ok s)
    (hbt : sem.predict p.blocks_type_pred (docD doc i b w s) = .ok tb)
    (hst : sem.predict p.sents_type_pred (docE doc i b w s tb) = .ok ts) :
    (Pipeline.run sem p cp input).2 = .ok (docF doc i b w s tb ts) ∧
    (docF doc i b w s tb ts).fields = doc.fields ++ fullLayerOrder ∧
    (docF doc i b w s tb ts).symbols = doc.symbols ∧
    (Pipeline.run sem p cp input).1 =
      tr_full input (cp input) doc i b w s tb ts := by
  have h := run_eq_of_ok sem p cp input doc i b w s tb ts hp hr hl hw hs hbt hst
  refine ⟨by rw [h], ?_, ?_, by rw [h]⟩
  · simp [docF, docE, docD, docC, docB, docA, fields_annotate, fullLayerOrder]
  · simp [docF, docE, docD, docC, docB, docA, Document.annotate]

/-- Witness for C1: a concrete run where every stage succeeds. -/
theorem c1_run_fully_annotates_witness :
    (Pipeline.run semOk pDef id "paper.pdf").2 = .ok (docF docW 1 2 2 2 2 2) ∧
    (docF docW 1 2 2 2 2 2).fields = docW.fields ++ fullLayerOrder ∧
    (docF docW 1 2 2 2 2 2).symbols = docW.symbols ∧
    (Pipeline.run semOk pDef id "paper.pdf").1 =
      tr_full "paper.pdf" (id "paper.pdf") docW 1 2 2 2 2 2 :=
  c1_run_fully_annotates semOk pDef id "paper.pdf" docW 1 2 2 2 2 2
    rfl rfl rfl rfl rfl rfl rfl

/-- C2: on every execution of `run` the layers attached to the Document,
read off the trace in order, form an initial segment of the fixed
dependency-ordered list images, blocks, words, sents, typed_blocks,
typed_sents (so no layer is ever attached before one it depends on), and on
every successful execution they are exactly that list. -/
theorem c2_layer_order (sem : Sem) (p : Pipeline) (cp : String → String)
    (input : String) :
    extendsTo (attachedFields (Pipeline.run sem p cp input).1)
      fullLayerOrder ∧
    (∀ d, (Pipeline.run sem p cp input).2 = .ok d →
      attachedFields (Pipeline.run sem p cp input).1 = fullLayerOrder) := by
  rcases hp : sem.parse p.parser (cp input) with e | doc
  · rw [run_eq_of_parse_error sem p cp input e hp]
    exact ⟨⟨fullLayerOrder, rfl⟩, fun d hd => nomatch hd⟩
  rcases hr : sem.rasterize p.rasterizer (cp input) 72 with e | i
  · rw [run_eq_of_rast_error sem p cp input e doc hp hr]
    exact ⟨⟨fullLayerOrder, rfl⟩, fun d hd => nomatch hd⟩
  rcases hl : sem.predict p.layout_pred (docA doc i) with e | b
  · rw [run_eq_of_layout_error sem p cp input e doc i hp hr hl]
    exact ⟨⟨[.blocks, .words, .sents, .typed_blocks, .typed_sents], rfl⟩,
      fun d hd => nomatch hd⟩
  rcases hw : sem.predict p.words_pred (docB doc i b) with e | w
  · rw [run_eq_of_words_error sem p cp input e doc i b hp hr hl hw]
    exact ⟨⟨[.words, .sents, .typed_blocks, .typed_sents], rfl⟩,
      fun d hd => nomatch hd⟩
  rcases hs : sem.predict p.sents_pred (docC doc i b w) with e | s
  · rw [run_eq_of_sents_error sem p cp input e doc i b w hp hr hl hw hs]
    exact ⟨⟨[.sents, .typed_blocks, .typed_sents], rfl⟩,
      fun d hd => nomatch hd⟩
  rcases hbt : sem.predict p.blocks_type_pred (docD doc i b w s) with e | tb
  · rw [run_eq_of_blocks_type_error sem p cp input e doc i b w s hp hr hl hw hs hbt]
    exact ⟨⟨[.typed_blocks, .typed_sents], rfl⟩, fun d hd => nomatch hd⟩
  rcases hst : sem.predict p.sents_type_pred (docE doc i b w s tb) with e | ts
  · rw [run_eq_of_sents_type_error sem p cp input e doc i b w s tb hp hr hl hw hs hbt hst]
    exact ⟨⟨[.typed_sents], rfl⟩, fun d hd => nomatch hd⟩
  · rw [run_eq_of_ok sem p cp input doc i b w s tb ts hp hr hl hw hs hbt hst]
    exact ⟨⟨[], rfl⟩, fun d _ => rfl⟩

/-- Witness for C2: at a concrete successful run the attached layers are
exactly the full ordered list. -/
theorem c2_layer_order_witness :
    extendsTo (attachedFields (Pipeline.run semOk pDef id "paper.pdf").1)
      fullLayerOrder ∧
    attachedFields (Pipeline.run semOk pDef id "paper.pdf").1 =
      fullLayerOrder :=
  ⟨(c2_layer_order semOk pDef id "paper.pdf").1,
   (c2_layer_order semOk pDef id "paper.pdf").2 (docF docW 1 2 2 2 2 2) rfl⟩

/-- C3: if any of the seven sub-processor calls of `run` raises, `run`
propagates that same error unmodified and returns no Document: whichever
stage fails first (parser, rasterizer, layout, word, sentence, block-type
or sentence-type predictor), the result of `run` is exactly that stage's
error. -/
theorem c3_error_propagation (sem : Sem) (p : Pipeline)
    (cp : String → String) (input : String) (e : String) :
    (sem.parse p.parser (cp input) = .error e →
      (Pipeline.run sem p cp input).2 = .error e) ∧
    (∀ doc, sem.parse p.parser (cp input) = .ok doc →
      sem.rasterize p.rasterizer (cp input) 72 = .error e →
      (Pipeline.run sem p cp input).2 = .error e) ∧
    (∀ doc i, sem.parse p.parser (cp input) = .ok doc →
      sem.rasterize p.rasterizer (cp input) 72 = .ok i →
      sem.predict p.layout_pred (docA doc i) = .error e →
      (Pipeline.run sem p cp input).2 = .error e) ∧
    (∀ doc i b, sem.parse p.parser (cp input) = .ok doc →
      sem.rasterize p.rasterizer (cp input) 72 = .ok i →
      sem.predict p.layout_pred (docA doc i) = .ok b →
      sem.predict p.words_pred (docB doc i b) = .error e →
      (Pipeline.run sem p cp input).2 = .error e) ∧
    (∀ doc i b w, sem.parse p.parser (cp input) = .ok doc →
      sem.rasterize p.rasterizer (cp input) 72 = .ok i →
      sem.predict p.layout_pred (docA doc i) = .ok b →
      sem.predict p.words_pred (docB doc i b) = .ok w →
      sem.predict p.sents_pred (docC doc i b w) = .error e →
      (Pipeline.run sem p cp input).2 = .error e) ∧
    (∀ doc i b w s, sem.parse p.parser (cp input) = .ok doc →
      sem.rasterize p.rasterizer (cp input) 72 = .ok i →
      sem.predict p.layout_pred (docA doc i) = .ok b →
      sem.predict p.words_pred (docB doc i b) = .ok w →
      sem.predict p.sents_pred (docC doc i b w) = .ok s →
      sem.predict p.blocks_type_pred (docD doc i b w s) = .error e →
      (Pipeline.run sem p cp input).2 = .error e) ∧
    (∀ doc i b w s tb, sem.parse p.parser (cp input) = .ok doc →
      sem.rasterize p.rasterizer (cp input) 72 = .ok i →
      sem.predict p.layout_pred (docA doc i) = .ok b →
      sem.predict p.words_pred (docB doc i b) = .ok w →
      sem.predict p.sents_pred (docC doc i b w) = .ok s →
      sem.predict p.blocks_type_pred (docD doc i b w s) = .ok tb →
      sem.predict p.sents_type_pred (docE doc i b w s tb) = .error e →
      (Pipeline.run sem p cp input).2 = .error e) := by
  refine ⟨?_, ?_, ?_, ?_, ?_, ?_, ?_⟩
  · intro hp
    rw [run_eq_of_parse_error sem p cp input e hp]
  · intro doc hp hr
    rw [run_eq_of_rast_error sem p cp input e doc hp hr]
  · intro doc i hp hr hl
    rw [run_eq_of_layout_error sem p cp input e doc i hp hr hl]
  · intro doc i b hp hr hl hw
    rw [run_eq_of_words_error sem p cp input e doc i b hp hr hl hw]
  · intro doc i b w hp hr hl hw hs
    rw [run_eq_of_sents_error sem p cp input e doc i b w hp hr hl hw hs]
  · intro doc i b w s hp hr hl hw hs hbt
    rw [run_eq_of_blocks_type_error sem p cp input e doc i b w s hp hr hl hw hs hbt]
  · intro doc i b w s tb hp hr hl hw hs hbt hst
    rw [run_eq_of_sents_type_error sem p cp input e doc i b w s tb hp hr hl hw hs hbt hst]

/-- Witness for C3: concrete runs where the word predictor raises and where
the sentence predictor raises; the caller gets exactly that error. -/
theorem c3_error_propagation_witness :
    (Pipeline.run semWordsFail pDef id "paper.pdf").2 =
      .error "word predictor failed" ∧
    (Pipeline.run semSentsFail pDef id "paper.pdf").2 =
      .error "sentence predictor failed" :=
  ⟨(c3_error_propagation semWordsFail pDef id "paper.pdf"
      "word predictor failed").2.2.2.1 docW 1 2 rfl rfl rfl rfl,
   (c3_error_propagation semSentsFail pDef id "paper.pdf"
      "sentence predictor failed").2.2.2.2.1 docW 1 2 2 rfl rfl rfl rfl rfl⟩

/-- C4: Pipeline construction instantiates each of the seven stages from
its configured target class and parameters via `sp.init.now`, and the
default configuration yields the documented default implementations and
parameters, in particular the layout model `lp://efficientdet/PubLayNet`
and a word dictionary obtained by the caching fetch from the remote
`words.txt` URL. -/
theorem c4_init_stages_and_defaults :
    (∀ config : PipelineConfig,
      Pipeline.init config =
        { parser := sp_init_now config.parser,
          rasterizer := sp_init_now config.rasterizer,
          layout_pred := sp_init_now config.layout,
          words_pred := sp_init_now config.words,
          sents_pred := sp_init_now config.sents,
          blocks_type_pred := sp_init_now config.blocks_type,
          sents_type_pred := sp_init_now config.sents_type }) ∧
    (∀ cp : String → String,
      Pipeline.init (defaultPipelineConfig cp) =
        { parser :=
            { cls := "mmda.parsers.pdfplumber_parser.PDFPlumberParser",
              args := [] },
          rasterizer :=
            { cls := "mmda.rasterizers.rasterizer.PDF2ImageRasterizer",
              args := [] },
          layout_pred :=
            { cls := "mmda.predictors.lp_predictors.LayoutParserPredictor.from_pretrained",
              args := [("config_path", "lp://efficientdet/PubLayNet")] },
          words_pred :=
            { cls := "pdf2sents.word_predictors.ExtendedDictionaryWordPredictor",
              args := [("dictionary_file_path", cp wordsUrl)] },
          sents_pred :=
            { cls := "mmda.predictors.heuristic_predictors.sentence_boundary_predictor.PysbdSentenceBoundaryPredictor",
              args := [] },
          blocks_type_pred :=
            { cls := "pdf2sents.typed_predictors.TypedBlockPredictor",
              args := [] },
          sents_type_pred :=
            { cls := "pdf2sents.typed_predictors.TypedSentencesPredictor",
              args := [] } }) :=
  ⟨fun _ => rfl, fun _ => rfl⟩

/-- C6: for any two configurations that agree on every stage other than
some stage `s`, pipeline construction produces identical instances for
every stage other than `s`: overriding one stage's configuration does not
affect the construction of any other stage. -/
theorem c6_override_frame (c1 c2 : PipelineConfig) (s : StageId)
    (h : ∀ t, t ≠ s → c1.get t = c2.get t) :
    ∀ t, t ≠ s → (Pipeline.init c1).get t = (Pipeline.init c2).get t := by
  intro t ht
  have hc := h t ht
  cases t <;> simp only [PipelineConfig.get] at hc <;>
    simp only [Pipeline.get, Pipeline.init] <;> rw [hc]

/-- Witness for C6: the default configuration and the same configuration
with a different layout model construct the same words stage. -/
theorem c6_override_frame_witness :
    (Pipeline.init (defaultPipelineConfig id)).get StageId.words =
      (Pipeline.init cfgAltLayout).get StageId.words :=
  c6_override_frame (defaultPipelineConfig id) cfgAltLayout StageId.layout
    (fun t ht => by cases t <;> first | rfl | exact absurd rfl ht)
    StageId.words (by decide)

/-- C8: calling a Pipeline instance directly (`__call__`) is the same
function as `run`: for every semantics, pipeline, path resolution and
input the two return the same trace and result. -/
theorem c8_call_eq_run (sem : Sem) (p : Pipeline) (cp : String → String)
    (input : String) :
    Pipeline.call sem p cp input = Pipeline.run sem p cp input := rfl

/-- C7: pipeline stages only add annotation layers.  Every annotate event
of every execution of `run` extends the document's layers by exactly the
one new layer (nothing is removed or replaced), and consecutive annotate
events chain — the layers after one attachment are exactly the layers
before the next — so the attached layer list grows monotonically
throughout the run. -/
theorem c7_layers_monotone (sem : Sem) (p : Pipeline) (cp : String → String)
    (input : String) :
    (∀ f bf af,
      Event.annotateLayer f bf af ∈ (Pipeline.run sem p cp input).1 →
      af = bf ++ [f]) ∧
    List.Chain' (fun x y => x.2.2 = y.2.1)
      (annEvents (Pipeline.run sem p cp input).1) := by
  rcases hp : sem.parse p.parser (cp input) with e | doc
  · rw [run_eq_of_parse_error sem p cp input e hp]
    constructor
    · intro f bf af hmem
      simp [tr_parse] at hmem
    · simp [annEvents, tr_parse]
  rcases hr : sem.rasterize p.rasterizer (cp input) 72 with e | i
  · rw [run_eq_of_rast_error sem p cp input e doc hp hr]
    constructor
    · intro f bf af hmem
      simp [tr_rast, tr_parse] at hmem
    · simp [annEvents, tr_rast, tr_parse]
  rcases hl : sem.predict p.layout_pred (docA doc i) with e | b
  · rw [run_eq_of_layout_error sem p cp input e doc i hp hr hl]
    constructor
    · intro f bf af hmem
      simp [tr_layout, tr_rast, tr_parse] at hmem
      rcases hmem with ⟨rfl, rfl, rfl⟩
      simp [docA, fields_annotate]
    · simp [annEvents, tr_layout, tr_rast, tr_parse]
  rcases hw : sem.predict p.words_pred (docB doc i b) with e | w
  · rw [run_eq_of_words_error sem p cp input e doc i b hp hr hl hw]
    constructor
    · intro f bf af hmem
      simp [tr_words, tr_layout, tr_rast, tr_parse] at hmem
      rcases hmem with h | h <;> obtain ⟨rfl, rfl, rfl⟩ := h <;>
        simp [docA, docB, fields_annotate]
    · simp [annEvents, tr_words, tr_layout, tr_rast, tr_parse]
  rcases hs : sem.predict p.sents_pred (docC doc i b w) with e | s
  · rw [run_eq_of_sents_error sem p cp input e doc i b w hp hr hl hw hs]
    constructor
    · intro f bf af hmem
      simp [tr_sents, tr_words, tr_layout, tr_rast, tr_parse] at hmem
      rcases hmem with h | h | h <;> obtain ⟨rfl, rfl, rfl⟩ := h <;>
        simp [docA, docB, docC, fields_annotate]
    · simp [annEvents, tr_sents, tr_words, tr_layout, tr_rast, tr_parse]
  rcases hbt : sem.predict p.blocks_type_pred (docD doc i b w s) with e | tb
  · rw [run_eq_of_blocks_type_error sem p cp input e doc i b w s hp hr hl hw hs hbt]
    constructor
    · intro f bf af hmem
      simp [tr_blocks_type, tr_sents, tr_words, tr_layout, tr_rast, tr_parse] at hmem
      rcases hmem with h | h | h | h <;> obtain ⟨rfl, rfl, rfl⟩ := h <;>
        simp [docA, docB, docC, docD, fields_annotate]
    · simp [annEvents, tr_blocks_type, tr_sents, tr_words, tr_layout, tr_rast,
        tr_parse]
  rcases hst : sem.predict p.sents_type_pred (docE doc i b w s tb) with e | ts
  · rw [run_eq_of_sents_type_error sem p cp input e doc i b w s tb hp hr hl hw hs hbt hst]
    constructor
    · intro f bf af hmem
      simp [tr_sents_type, tr_blocks_type, tr_sents, tr_words, tr_layout,
        tr_rast, tr_parse] at hmem
      rcases hmem with h | h | h | h | h <;> obtain ⟨rfl, rfl, rfl⟩ := h <;>
        simp [docA, docB, docC, docD, docE, fields_annotate]
    · simp [annEvents, tr_sents_type, tr_blocks_type, tr_sents, tr_words,
        tr_layout, tr_rast, tr_parse]
  · rw [run_eq_of_ok sem p cp input doc i b w s tb ts hp hr hl hw hs hbt hst]
    constructor
    · intro f bf af hmem
      simp [tr_full, tr_sents_type, tr_blocks_type, tr_sents, tr_words,
        tr_layout, tr_rast, tr_parse] at hmem
      rcases hmem with h | h | h | h | h | h <;> obtain ⟨rfl, rfl, rfl⟩ := h <;>
        simp [docA, docB, docC, docD, docE, docF, fields_annotate]
    · simp [annEvents, tr_full, tr_sents_type, tr_blocks_type, tr_sents,
        tr_words, tr_layout, tr_rast, tr_parse]

/-- Witness for C7: at a concrete successful run, the images annotate event
extends the empty layer list by exactly the images layer, and the annotate
events chain. -/
theorem c7_layers_monotone_witness :
    (docA docW 1).fields = docW.fields ++ [Field.images] ∧
    List.Chain' (fun x y => x.2.2 = y.2.1)
      (annEvents (Pipeline.run semOk pDef id "paper.pdf").1) :=
  ⟨(c7_layers_monotone semOk pDef id "paper.pdf").1 Field.images
      docW.fields (docA docW 1).fields (by simp [Pipeline.run, semOk,
        tr_full, tr_sents_type, tr_blocks_type, tr_sents, tr_words,
        tr_layout, tr_rast, tr_parse]),
   (c7_layers_monotone semOk pDef id "paper.pdf").2⟩

/-- C9: the rasterizer is always called at the hardcoded resolution of 72
dpi: in every execution of `run` — whatever the pipeline configuration,
including the rasterizer stage's parameters — every rasterize call in the
trace passes dpi 72 (and the resolved source path), and whenever the parse
succeeds the rasterize call at dpi 72 is actually performed. -/
theorem c9_dpi_fixed (sem : Sem) (p : Pipeline) (cp : String → String)
    (input : String) :
    (∀ path dpi,
      Event.rasterizeCall path dpi ∈ (Pipeline.run sem p cp input).1 →
      dpi = 72 ∧ path = cp input) ∧
    (∀ doc, sem.parse p.parser (cp input) = .ok doc →
      Event.rasterizeCall (cp input) 72 ∈ (Pipeline.run sem p cp input).1) := by
  rcases hp : sem.parse p.parser (cp input) with e | doc
  · rw [run_eq_of_parse_error sem p cp input e hp]
    constructor
    · intro path dpi hmem
      simp [tr_parse] at hmem
    · intro doc hdoc
      exact nomatch hdoc
  rcases hr : sem.rasterize p.rasterizer (cp input) 72 with e | i
  · rw [run_eq_of_rast_error sem p cp input e doc hp hr]
    constructor
    · intro path dpi hmem
      simp [tr_rast, tr_parse] at hmem
      exact ⟨hmem.2, hmem.1⟩
    · intro doc' _
      simp [tr_rast, tr_parse]
  rcases hl : sem.predict p.layout_pred (docA doc i) with e | b
  · rw [run_eq_of_layout_error sem p cp input e doc i hp hr hl]
    constructor
    · intro path dpi hmem
      simp [tr_layout, tr_rast, tr_parse] at hmem
      exact ⟨hmem.2, hmem.1⟩
    · intro doc' _
      simp [tr_layout, tr_rast, tr_parse]
  rcases hw : sem.predict p.words_pred (docB doc i b) with e | w
  · rw [run_eq_of_words_error sem p cp input e doc i b hp hr hl hw]
    constructor
    · intro path dpi hmem
      simp [tr_words, tr_layout, tr_rast, tr_parse] at hmem
      exact ⟨hmem.2, hmem.1⟩
    · intro doc' _
      simp [tr_words, tr_layout, tr_rast, tr_parse]
  rcases hs : sem.predict p.sents_pred (docC doc i b w) with e | s
  · rw [run_eq_of_sents_error sem p cp input e doc i b w hp hr hl hw hs]
    constructor
    · intro path dpi hmem
      simp [tr_sents, tr_words, tr_layout, tr_rast, tr_parse] at hmem
      exact ⟨hmem.2, hmem.1⟩
    · intro doc' _
      simp [tr_sents, tr_words, tr_layout, tr_rast, tr_parse]
  rcases hbt : sem.predict p.blocks_type_pred (docD doc i b w s) with e | tb
  · rw [run_eq_of_blocks_type_error sem p cp input e doc i b w s hp hr hl hw hs hbt]
    constructor
    · intro path dpi hmem
      simp [tr_blocks_type, tr_sents, tr_words, tr_layout, tr_rast, tr_parse] at hmem
      exact ⟨hmem.2, hmem.1⟩
    · intro doc' _
      simp [tr_blocks_type, tr_sents, tr_words, tr_layout, tr_rast, tr_parse]
  rcases hst : sem.predict p.sents_type_pred (docE doc i b w s tb) with e | ts
  · rw [run_eq_of_sents_type_error sem p cp input e doc i b w s tb hp hr hl hw hs hbt hst]
    constructor
    · intro path dpi hmem
      simp [tr_sents_type, tr_blocks_type, tr_sents, tr_words, tr_layout,
        tr_rast, tr_parse] at hmem
      exact ⟨hmem.2, hmem.1⟩
    · intro doc' _
      simp [tr_sents_type, tr_blocks_type, tr_sents, tr_words, tr_layout,
        tr_rast, tr_parse]
  · rw [run_eq_of_ok sem p cp input doc i b w s tb ts hp hr hl hw hs hbt hst]
    constructor
    · intro path dpi hmem
      simp [tr_full, tr_sents_type, tr_blocks_type, tr_sents, tr_words,
        tr_layout, tr_rast, tr_parse] at hmem
      exact ⟨hmem.2, hmem.1⟩
    · intro doc' _
      simp [tr_full, tr_sents_type, tr_blocks_type, tr_sents, tr_words,
        tr_layout, tr_rast, tr_parse]

/-- Witness for C9: at a concrete run the rasterize call is present and
made at dpi 72. -/
theorem c9_dpi_fixed_witness :
    (72 = 72 ∧ "paper.pdf" = id "paper.pdf") ∧
    Event.rasterizeCall (id "paper.pdf") 72 ∈
      (Pipeline.run semOk pDef id "paper.pdf").1 :=
  ⟨(c9_dpi_fixed semOk pDef id "paper.pdf").1 "paper.pdf" 72
      (by simp [Pipeline.run, semOk, tr_full, tr_sents_type, tr_blocks_type,
        tr_sents, tr_words, tr_layout, tr_rast, tr_parse]),
   (c9_dpi_fixed semOk pDef id "paper.pdf").2 docW rfl⟩

/-- C5: warning suppression is scoped to the layout-detection inference
call: in every execution of `run`, a predictor call happens with the
suppression in force exactly when it is the layout predictor, the
`simplefilter("ignore")` directive itself only ever happens inside the
`catch_warnings` block, and the only effect of `run` on the returned
Document beyond parsing is the six attached annotation layers. -/
theorem c5_warn_only_layout (sem : Sem) (p : Pipeline)
    (cp : String → String) (input : String) :
    (∀ s bo,
      (Event.predictCall s, bo) ∈
        markSupp false (Pipeline.run sem p cp input).1 →
      (bo = true ↔ s = PredStage.layout)) ∧
    (∀ bo,
      (Event.warnIgnore, bo) ∈
        markSupp false (Pipeline.run sem p cp input).1 →
      bo = true) ∧
    (∀ doc' d, sem.parse p.parser (cp input) = .ok doc' →
      (Pipeline.run sem p cp input).2 = .ok d →
      d.fields = doc'.fields ++ fullLayerOrder ∧ d.symbols = doc'.symbols) := by
  rcases hp : sem.parse p.parser (cp input) with e | doc
  · rw [run_eq_of_parse_error sem p cp input e hp]
    refine ⟨?_, ?_, ?_⟩
    · intro s bo hmem
      simp [markSupp, suppStep, tr_parse] at hmem
    · intro bo hmem
      simp [markSupp, suppStep, tr_parse] at hmem
    · intro doc' d hdoc _
      exact nomatch hdoc
  rcases hr : sem.rasterize p.rasterizer (cp input) 72 with e | i
  · rw [run_eq_of_rast_error sem p cp input e doc hp hr]
    refine ⟨?_, ?_, ?_⟩
    · intro s bo hmem
      simp [markSupp, suppStep, tr_rast, tr_parse] at hmem
    · intro bo hmem
      simp [markSupp, suppStep, tr_rast, tr_parse] at hmem
    · intro doc' d _ hd
      exact nomatch hd
  rcases hl : sem.predict p.layout_pred (docA doc i) with e | b
  · rw [run_eq_of_layout_error sem p cp input e doc i hp hr hl]
    refine ⟨?_, ?_, ?_⟩
    · intro s bo hmem
      simp [markSupp, suppStep, tr_layout, tr_rast, tr_parse] at hmem
      rcases hmem with ⟨rfl, rfl⟩
      simp
    · intro bo hmem
      simp [markSupp, suppStep, tr_layout, tr_rast, tr_parse] at hmem
      exact hmem
    · intro doc' d _ hd
      exact nomatch hd
  rcases hw : sem.predict p.words_pred (docB doc i b) with e | w
  · rw [run_eq_of_words_error sem p cp input e doc i b hp hr hl hw]
    refine ⟨?_, ?_, ?_⟩
    · intro s bo hmem
      simp [markSupp, suppStep, tr_words, tr_layout, tr_rast, tr_parse] at hmem
      rcases hmem with h | h <;> obtain ⟨rfl, rfl⟩ := h <;> simp
    · intro bo hmem
      simp [markSupp, suppStep, tr_words, tr_layout, tr_rast, tr_parse] at hmem
      exact hmem
    · intro doc' d _ hd
      exact nomatch hd
  rcases hs : sem.predict p.sents_pred (docC doc i b w) with e | s
  · rw [run_eq_of_sents_error sem p cp input e doc i b w hp hr hl hw hs]
    refine ⟨?_, ?_, ?_⟩
    · intro s' bo hmem
      simp [markSupp, suppStep, tr_sents, tr_words, tr_layout, tr_rast,
        tr_parse] at hmem
      rcases hmem with h | h | h <;> obtain ⟨rfl, rfl⟩ := h <;> simp
    · intro bo hmem
      simp [markSupp, suppStep, tr_sents, tr_words, tr_layout, tr_rast,
        tr_parse] at hmem
      exact hmem
    · intro doc' d _ hd
      exact nomatch hd
  rcases hbt : sem.predict p.blocks_type_pred (docD doc i b w s) with e | tb
  · rw [run_eq_of_blocks_type_error sem p cp input e doc i b w s hp hr hl hw hs hbt]
    refine ⟨?_, ?_, ?_⟩
    · intro s' bo hmem
      simp [markSupp, suppStep, tr_blocks_type, tr_sents, tr_words, tr_layout,
        tr_rast, tr_parse] at hmem
      rcases hmem with h | h | h | h <;> obtain ⟨rfl, rfl⟩ := h <;> simp
    · intro bo hmem
      simp [markSupp, suppStep, tr_blocks_type, tr_sents, tr_words, tr_layout,
        tr_rast, tr_parse] at hmem
      exact hmem
    · intro doc' d _ hd
      exact nomatch hd
  rcases hst : sem.predict p.sents_type_pred (docE doc i b w s tb) with e | ts
  · rw [run_eq_of_sents_type_error sem p cp input e doc i b w s tb hp hr hl hw hs hbt hst]
    refine ⟨?_, ?_, ?_⟩
    · intro s' bo hmem
      simp [markSupp, suppStep, tr_sents_type, tr_blocks_type, tr_sents,
        tr_words, tr_layout, tr_rast, tr_parse] at hmem
      rcases hmem with h | h | h | h | h <;> obtain ⟨rfl, rfl⟩ := h <;> simp
    · intro bo hmem
      simp [markSupp, suppStep, tr_sents_type, tr_blocks_type, tr_sents,
        tr_words, tr_layout, tr_rast, tr_parse] at hmem
      exact hmem
    · intro doc' d _ hd
      exact nomatch hd
  · rw [run_eq_of_ok sem p cp input doc i b w s tb ts hp hr hl hw hs hbt hst]
    refine ⟨?_, ?_, ?_⟩
    · intro s' bo hmem
      simp [markSupp, suppStep, tr_full, tr_sents_type, tr_blocks_type,
        tr_sents, tr_words, tr_layout, tr_rast, tr_parse] at hmem
      rcases hmem with h | h | h | h | h <;> obtain ⟨rfl, rfl⟩ := h <;> simp
    · intro bo hmem
      simp [markSupp, suppStep, tr_full, tr_sents_type, tr_blocks_type,
        tr_sents, tr_words, tr_layout, tr_rast, tr_parse] at hmem
      exact hmem
    · intro doc' d hdoc hd
      injection hdoc with hdoc'
      injection hd with hd'
      subst hdoc'
      subst hd'
      constructor
      · simp [docF, docE, docD, docC, docB, docA, fields_annotate,
          fullLayerOrder]
      · simp [docF, docE, docD, docC, docB, docA, Document.annotate]

/-- Witness for C5: at a concrete run, the layout predictor call is the
suppressed one, and the returned document carries exactly the parsed
layers plus the six annotation layers. -/
theorem c5_warn_only_layout_witness :
    (true = true ↔ PredStage.layout = PredStage.layout) ∧
    ((docF docW 1 2 2 2 2 2).fields = docW.fields ++ fullLayerOrder ∧
      (docF docW 1 2 2 2 2 2).symbols = docW.symbols) :=
  ⟨(c5_warn_only_layout semOk pDef id "paper.pdf").1 PredStage.layout true
      (by simp [Pipeline.run, semOk, markSupp, suppStep, tr_full,
        tr_sents_type, tr_blocks_type, tr_sents, tr_words, tr_layout,
        tr_rast, tr_parse]),
   (c5_warn_only_layout semOk pDef id "paper.pdf").2.2 docW
      (docF docW 1 2 2 2 2 2) rfl rfl⟩

/-- C10: the warnings filter state is restored after the layout stage: in
every execution of `run`, every predictor call other than the layout one
happens with the suppression not in force, whenever the `catch_warnings`
block is entered it is also exited (even when the layout predictor
raises), and the suppression state left after the whole trace is off. -/
theorem c10_warn_restored (sem : Sem) (p : Pipeline)
    (cp : String → String) (input : String) :
    (∀ s bo,
      (Event.predictCall s, bo) ∈
        markSupp false (Pipeline.run sem p cp input).1 →
      s ≠ PredStage.layout → bo = false) ∧
    (Event.warnBegin ∈ (Pipeline.run sem p cp input).1 →
      Event.warnEnd ∈ (Pipeline.run sem p cp input).1) ∧
    finalSupp false (Pipeline.run sem p cp input).1 = false := by
  rcases hp : sem.parse p.parser (cp input) with e | doc
  · rw [run_eq_of_parse_error sem p cp input e hp]
    refine ⟨?_, ?_, rfl⟩
    · intro s bo hmem
      simp [markSupp, suppStep, tr_parse] at hmem
    · intro h
      simp [tr_parse] at h
  rcases hr : sem.rasterize p.rasterizer (cp input) 72 with e | i
  · rw [run_eq_of_rast_error sem p cp input e doc hp hr]
    refine ⟨?_, ?_, rfl⟩
    · intro s bo hmem
      simp [markSupp, suppStep, tr_rast, tr_parse] at hmem
    · intro h
      simp [tr_rast, tr_parse] at h
  rcases hl : sem.predict p.layout_pred (docA doc i) with e | b
  · rw [run_eq_of_layout_error sem p cp input e doc i hp hr hl]
    refine ⟨?_, ?_, rfl⟩
    · intro s bo hmem hs
      simp [markSupp, suppStep, tr_layout, tr_rast, tr_parse] at hmem
      exact absurd hmem.1 hs
    · intro _
      simp [tr_layout, tr_rast, tr_parse]
  rcases hw : sem.predict p.words_pred (docB doc i b) with e | w
  · rw [run_eq_of_words_error sem p cp input e doc i b hp hr hl hw]
    refine ⟨?_, ?_, rfl⟩
    · intro s bo hmem hs
      simp [markSupp, suppStep, tr_words, tr_layout, tr_rast, tr_parse] at hmem
      rcases hmem with h | h
      · exact absurd h.1 hs
      · exact h.2
    · intro _
      simp [tr_words, tr_layout, tr_rast, tr_parse]
  rcases hs : sem.predict p.sents_pred (docC doc i b w) with e | s
  · rw [run_eq_of_sents_error sem p cp input e doc i b w hp hr hl hw hs]
    refine ⟨?_, ?_, rfl⟩
    · intro s' bo hmem hs'
      simp [markSupp, suppStep, tr_sents, tr_words, tr_layout, tr_rast,
        tr_parse] at hmem
      rcases hmem with h | h | h
      · exact absurd h.1 hs'
      all_goals exact h.2
    · intro _
      simp [tr_sents, tr_words, tr_layout, tr_rast, tr_parse]
  rcases hbt : sem.predict p.blocks_type_pred (docD doc i b w s) with e | tb
  · rw [run_eq_of_blocks_type_error sem p cp input e doc i b w s hp hr hl hw hs hbt]
    refine ⟨?_, ?_, rfl⟩
    · intro s' bo hmem hs'
      simp [markSupp, suppStep, tr_blocks_type, tr_sents, tr_words, tr_layout,
        tr_rast, tr_parse] at hmem
      rcases hmem with h | h | h | h
      · exact absurd h.1 hs'
      all_goals exact h.2
    · intro _
      simp [tr_blocks_type, tr_sents, tr_words, tr_layout, tr_rast, tr_parse]
  rcases hst : sem.predict p.sents_type_pred (docE doc i b w s tb) with e | ts
  · rw [run_eq_of_sents_type_error sem p cp input e doc i b w s tb hp hr hl hw hs hbt hst]
    refine ⟨?_, ?_, rfl⟩
    · intro s' bo hmem hs'
      simp [markSupp, suppStep, tr_sents_type, tr_blocks_type, tr_sents,
        tr_words, tr_layout, tr_rast, tr_parse] at hmem
      rcases hmem with h | h | h | h | h
      · exact absurd h.1 hs'
      all_goals exact h.2
    · intro _
      simp [tr_sents_type, tr_blocks_type, tr_sents, tr_words, tr_layout,
        tr_rast, tr_parse]
  · rw [run_eq_of_ok sem p cp input doc i b w s tb ts hp hr hl hw hs hbt hst]
    refine ⟨?_, ?_, rfl⟩
    · intro s' bo hmem hs'
      simp [markSupp, suppStep, tr_full, tr_sents_type, tr_blocks_type,
        tr_sents, tr_words, tr_layout, tr_rast, tr_parse] at hmem
      rcases hmem with h | h | h | h | h
      · exact absurd h.1 hs'
      all_goals exact h.2
    · intro _
      simp [tr_full, tr_sents_type, tr_blocks_type, tr_sents, tr_words,
        tr_layout, tr_rast, tr_parse]

/-- Witness for C10: at a concrete run, the word predictor call is
unsuppressed, the entered `catch_warnings` block is exited, and the final
suppression state is off. -/
theorem c10_warn_restored_witness :
    (false = false) ∧
    Event.warnEnd ∈ (Pipeline.run semOk pDef id "paper.pdf").1 ∧
    finalSupp false (Pipeline.run semOk pDef id "paper.pdf").1 = false :=
  ⟨(c10_warn_restored semOk pDef id "paper.pdf").1 PredStage.words false
      (by simp [Pipeline.run, semOk, markSupp, suppStep, tr_full,
        tr_sents_type, tr_blocks_type, tr_sents, tr_words, tr_layout,
        tr_rast, tr_parse]) (by decide),
   (c10_warn_restored semOk pDef id "paper.pdf").2.1
      (by simp [Pipeline.run, semOk, tr_full, tr_sents_type, tr_blocks_type,
        tr_sents, tr_words, tr_layout, tr_rast, tr_parse]),
   (c10_warn_restored semOk pDef id "paper.pdf").2.2⟩

end Pdf2Sents
